import Mathlib

/-!
Verification of the twoyi host daemon core (virtual input devices,
software gralloc server, framebuffer streamer).

The definitions below are shallow embeddings of the Rust source in
`server/src/input.rs`, `server/src/framebuffer.rs` and
`server/src/gralloc.rs`.  Machine integers are modelled as `Int`/`Nat`
(with explicit `% 2 ^ 64` where the source performs `usize` arithmetic
that may wrap); event timestamps, logging and raw socket plumbing are
not modelled.
-/

namespace Twoyi

/-! ### evdev / uinput constants (values from the Linux input ABI) -/

def EV_SYN : Int := 0
def EV_KEY : Int := 1
def EV_ABS : Int := 3
def SYN_REPORT : Int := 0
def BTN_TOUCH : Int := 330
def BTN_TOOL_FINGER : Int := 325
def ABS_MT_SLOT : Int := 47
def ABS_MT_POSITION_X : Int := 53
def ABS_MT_POSITION_Y : Int := 54
def ABS_MT_TRACKING_ID : Int := 57
def ABS_MT_PRESSURE : Int := 58

/-- Touch actions (matching Android MotionEvent), from `input.rs`. -/
def ACTION_DOWN : Int := 0
def ACTION_UP : Int := 1
def ACTION_MOVE : Int := 2
def ACTION_CANCEL : Int := 3
def ACTION_POINTER_DOWN : Int := 5
def ACTION_POINTER_UP : Int := 6

/-- One evdev input event as produced by `input_event_write` in
`input.rs` (the monotonic-clock timestamp is not modelled). -/
structure InputEvent where
  kind : Int
  code : Int
  value : Int
deriving DecidableEq, Repr

abbrev MAX_POINTERS : Nat := 5

/-- The slot-activity table `G_INPUT_MT : [i32; MAX_POINTERS]`. -/
abbrev TouchState : Type := Fin MAX_POINTERS → Int

/-- All slots start inactive (`[0i32; MAX_POINTERS]`). -/
def mtInit : TouchState := fun _ => 0

/-- One high-level touch command `(action, pointer_id, x, y, pressure)`
as passed to `handle_touch_event`.  Coordinates are the integer values
obtained from the `as i32` casts in the source. -/
structure TouchCmd where
  action : Int
  pid : Fin MAX_POINTERS
  x : Int
  y : Int
  pressure : Int
deriving DecidableEq, Repr

/-- Body of the ACTION_UP loop in `handle_touch_event`: clear an active
slot and emit slot / tracking-id(-1) / SYN_REPORT for it. -/
def clearSlot (st : TouchState × List InputEvent) (idx : Fin MAX_POINTERS) :
    TouchState × List InputEvent :=
  if st.1 idx ≠ 0 then
    (Function.update st.1 idx 0,
     st.2 ++ [⟨EV_ABS, ABS_MT_SLOT, (idx : Int)⟩,
              ⟨EV_ABS, ABS_MT_TRACKING_ID, -1⟩,
              ⟨EV_SYN, SYN_REPORT, SYN_REPORT⟩])
  else st

/-- Shallow embedding of `handle_touch_event` from `input.rs`.  The
`sender` argument models the `INPUT_SENDER` option: when it is `none`
(no consumer attached) the function does nothing.  The result is the
updated slot table and the list of events sent to the channel, in
order. -/
def handleTouchEvent (sender : Option Unit) (action : Int)
    (pid : Fin MAX_POINTERS) (x y pressure : Int) (mt : TouchState) :
    TouchState × List InputEvent :=
  match sender with
  | none => (mt, [])
  | some _ =>
    if action = ACTION_DOWN ∨ action = ACTION_POINTER_DOWN then
      (Function.update mt pid 1,
       [⟨EV_ABS, ABS_MT_SLOT, (pid : Int)⟩,
        ⟨EV_ABS, ABS_MT_TRACKING_ID, (pid : Int) + 1⟩]
       ++ (if (pid : Int) = 0 then
             [⟨EV_KEY, BTN_TOUCH, 108⟩, ⟨EV_KEY, BTN_TOOL_FINGER, 108⟩]
           else [])
       ++ [⟨EV_ABS, ABS_MT_POSITION_X, x⟩,
           ⟨EV_ABS, ABS_MT_POSITION_Y, y⟩,
           ⟨EV_ABS, ABS_MT_PRESSURE, pressure⟩,
           ⟨EV_SYN, SYN_REPORT, SYN_REPORT⟩])
    else if action = ACTION_UP then
      (List.finRange MAX_POINTERS).foldl clearSlot (mt, [])
    else if action = ACTION_MOVE then
      if mt pid ≠ 0 then
        (mt,
         [⟨EV_ABS, ABS_MT_SLOT, (pid : Int)⟩,
          ⟨EV_ABS, ABS_MT_POSITION_X, x⟩,
          ⟨EV_ABS, ABS_MT_POSITION_Y, y⟩,
          ⟨EV_ABS, ABS_MT_PRESSURE, pressure⟩,
          ⟨EV_SYN, SYN_REPORT, SYN_REPORT⟩])
      else (mt, [])
    else if action = ACTION_CANCEL ∨ action = ACTION_POINTER_UP then
      if mt pid = 0 then (mt, [])
      else
        (Function.update mt pid 0,
         [⟨EV_ABS, ABS_MT_SLOT, (pid : Int)⟩,
          ⟨EV_ABS, ABS_MT_TRACKING_ID, -1⟩,
          ⟨EV_SYN, SYN_REPORT, SYN_REPORT⟩])
    else (mt, [])

/-- Process one command, accumulating emitted events. -/
def touchStep (sender : Option Unit) (st : TouchState × List InputEvent)
    (c : TouchCmd) : TouchState × List InputEvent :=
  let r := handleTouchEvent sender c.action c.pid c.x c.y c.pressure st.1
  (r.1, st.2 ++ r.2)

/-- Process a sequence of touch commands starting from slot table `mt`,
returning the final slot table and every event emitted, in order. -/
def processTouch (sender : Option Unit) (mt : TouchState)
    (cmds : List TouchCmd) : TouchState × List InputEvent :=
  cmds.foldl (touchStep sender) (mt, [])

/-- State-only step (consumer attached). -/
def touchStepState (mt : TouchState) (c : TouchCmd) : TouchState :=
  (handleTouchEvent (some ()) c.action c.pid c.x c.y c.pressure mt).1

/-- State after a command sequence (consumer attached). -/
def runTouch (mt : TouchState) (cmds : List TouchCmd) : TouchState :=
  cmds.foldl touchStepState mt

/-- `c` is a DOWN or POINTER_DOWN naming pointer `i`. -/
def isDownOn (i : Fin MAX_POINTERS) (c : TouchCmd) : Bool :=
  decide ((c.action = ACTION_DOWN ∨ c.action = ACTION_POINTER_DOWN) ∧ c.pid = i)

/-- `c` is a lifecycle command that can clear slot `i`: an UP (which
clears every active slot), or a CANCEL / POINTER_UP naming `i`. -/
def isClearOn (i : Fin MAX_POINTERS) (c : TouchCmd) : Bool :=
  decide (c.action = ACTION_UP ∨
    ((c.action = ACTION_CANCEL ∨ c.action = ACTION_POINTER_UP) ∧ c.pid = i))

def isLifecycleOn (i : Fin MAX_POINTERS) (c : TouchCmd) : Bool :=
  isDownOn i c || isClearOn i c

/-- Specification of slot activity: slot `i` is active after `cmds`
(started from `mt`) exactly when the last lifecycle command concerning
slot `i` is a DOWN/POINTER_DOWN naming `i` (and when there is none,
when `mt` already had the slot active). -/
def specActiveFrom (mt : TouchState) (cmds : List TouchCmd)
    (i : Fin MAX_POINTERS) : Bool :=
  match cmds.reverse.find? (isLifecycleOn i) with
  | some c => isDownOn i c
  | none => mt i != 0

/-- Number of DOWN/POINTER_DOWN commands naming pointer `i`. -/
def downCount (cmds : List TouchCmd) (i : Fin MAX_POINTERS) : Nat :=
  cmds.countP (isDownOn i)

/-- Number of UP/CANCEL/POINTER_UP commands that actually cleared slot
`i` (took it from active to inactive), starting from the all-inactive
table. -/
def clearedCount (cmds : List TouchCmd) (i : Fin MAX_POINTERS) : Nat :=
  (cmds.foldl
    (fun (st : TouchState × Nat) c =>
      let mt := touchStepState st.1 c
      (mt,
       st.2 +
         (if (c.action = ACTION_UP ∨ c.action = ACTION_CANCEL ∨
               c.action = ACTION_POINTER_UP) ∧ st.1 i ≠ 0 ∧ mt i = 0
          then 1 else 0)))
    (mtInit, 0)).2

/-! ### Key device (`send_key_code`, dispatch loops) -/

/-- Shallow embedding of `send_key_code` from `input.rs`: the list of
events sent to the key channel (empty when no key consumer is
attached). -/
def sendKeyCode (sender : Option Unit) (keycode : Int) : List InputEvent :=
  match sender with
  | none => []
  | some _ =>
    [⟨EV_KEY, keycode, 1⟩,
     ⟨EV_SYN, SYN_REPORT, SYN_REPORT⟩,
     ⟨EV_KEY, keycode, 0⟩]

/-- `evs` satisfies the key framing rule: every `EV_KEY` event is
immediately followed by an `EV_SYN SYN_REPORT` event. -/
def everyKeyFollowedBySyn : List InputEvent → Bool
  | [] => true
  | [e] => !(e.kind == EV_KEY)
  | e :: e₂ :: rest =>
    (if e.kind == EV_KEY
     then e₂ == (⟨EV_SYN, SYN_REPORT, SYN_REPORT⟩ : InputEvent)
     else true) && everyKeyFollowedBySyn (e₂ :: rest)

/-- Outcome of one iteration of a per-consumer dispatch loop. -/
inductive LoopAct where
  | next
  | exit
deriving DecidableEq, Repr

/-- One iteration of the touch dispatch loop in `touch_server`
(`input.rs` lines 254-260): `let ret = rx.recv(); if let Ok(ev) = ret
{ ... let _ = stream.write_all(data); }` — the loop has no `break`;
the write result and a channel error are both ignored. -/
def touchLoopIter (recv : Option InputEvent) (writeOk : Bool) : LoopAct :=
  match recv, writeOk with
  | some _, true => LoopAct.next
  | some _, false => LoopAct.next
  | none, _ => LoopAct.next

/-- One iteration of the key dispatch loop in `key_server` (`input.rs`
lines 317-327): exits on write failure and on channel close. -/
def keyLoopIter (recv : Option InputEvent) (writeOk : Bool) : LoopAct :=
  match recv, writeOk with
  | some _, true => LoopAct.next
  | some _, false => LoopAct.exit
  | none, _ => LoopAct.exit

/-! ### Lemmas about the touch slot table -/

lemma clearSlot_fst_apply (st : TouchState × List InputEvent)
    (a i : Fin MAX_POINTERS) :
    (clearSlot st a).1 i = if i = a then 0 else st.1 i := by
  unfold clearSlot
  split_ifs with h1 h2 <;> simp_all [Function.update_apply]

lemma foldl_clearSlot_preserve (l : List (Fin MAX_POINTERS))
    (st : TouchState × List InputEvent) (i : Fin MAX_POINTERS)
    (h : st.1 i = 0) : ((l.foldl clearSlot st).1) i = 0 := by
  induction l generalizing st with
  | nil => exact h
  | cons a l ih =>
    simp only [List.foldl_cons]
    refine ih _ ?_
    rw [clearSlot_fst_apply]
    split_ifs <;> simp [h]

lemma foldl_clearSlot_mem (l : List (Fin MAX_POINTERS))
    (st : TouchState × List InputEvent) (i : Fin MAX_POINTERS)
    (h : i ∈ l) : ((l.foldl clearSlot st).1) i = 0 := by
  induction l generalizing st with
  | nil => cases h
  | cons a l ih =>
    simp only [List.foldl_cons]
    rcases List.mem_cons.mp h with rfl | hi
    · exact foldl_clearSlot_preserve _ _ _ (by rw [clearSlot_fst_apply]; simp)
    · exact ih _ hi

lemma foldl_clearSlot_finRange (st : TouchState × List InputEvent)
    (i : Fin MAX_POINTERS) :
    (((List.finRange MAX_POINTERS).foldl clearSlot st).1) i = 0 :=
  foldl_clearSlot_mem _ _ _ (List.mem_finRange i)

/-- Pointwise effect of one attached-consumer touch command on the slot
table: a DOWN/POINTER_DOWN naming `i` activates slot `i`, a clearing
lifecycle command deactivates it, everything else leaves it alone. -/
lemma touchStepState_apply (c : TouchCmd) (mt : TouchState)
    (i : Fin MAX_POINTERS) :
    touchStepState mt c i =
      if isDownOn i c then 1 else if isClearOn i c then 0 else mt i := by
  rcases c with ⟨a, pid, x, y, p⟩
  simp only [touchStepState, handleTouchEvent, isDownOn, isClearOn,
    ACTION_DOWN, ACTION_POINTER_DOWN, ACTION_UP, ACTION_MOVE, ACTION_CANCEL,
    ACTION_POINTER_UP, decide_eq_true_eq]
  split_ifs <;>
    simp_all [Function.update_apply, foldl_clearSlot_finRange] <;>
    omega

lemma runTouch_specActive (cmds : List TouchCmd) :
    ∀ (mt : TouchState) (i : Fin MAX_POINTERS),
      (runTouch mt cmds i != 0) = specActiveFrom mt cmds i := by
  induction cmds with
  | nil => intro mt i; rfl
  | cons c cmds ih =>
    intro mt i
    have hrun : runTouch mt (c :: cmds) = runTouch (touchStepState mt c) cmds := by
      simp [runTouch]
    rw [hrun, ih]
    unfold specActiveFrom
    have hrev : (c :: cmds).reverse = cmds.reverse ++ [c] := by simp
    rw [hrev, List.find?_append]
    cases hfind : cmds.reverse.find? (isLifecycleOn i) with
    | some c₂ => simp
    | none =>
      simp only [Option.none_or]
      rw [touchStepState_apply]
      by_cases hdo : isDownOn i c
      · simp [List.find?, isLifecycleOn, hdo]
      · by_cases hcl : isClearOn i c
        · simp [List.find?, isLifecycleOn, hdo, hcl]
        · simp [List.find?, isLifecycleOn, hdo, hcl]

lemma processTouch_fst (cmds : List TouchCmd) :
    ∀ (st : TouchState × List InputEvent),
      (cmds.foldl (touchStep (some ())) st).1 = runTouch st.1 cmds := by
  induction cmds with
  | nil => intro st; rfl
  | cons c cmds ih =>
    intro st
    simp only [List.foldl_cons]
    rw [ih]
    rfl

/-! ### Claim C1 -/

/-- C1 (counterexample): the counting form of the slot invariant fails.
For the sequence DOWN(0), DOWN(0), POINTER_UP(0) the number of
DOWN/POINTER_DOWN commands naming pointer 0 (two) exceeds the number of
UP/CANCEL/POINTER_UP commands that cleared slot 0 (one), yet after
processing, slot 0 is inactive. -/
theorem touch_slot_count_counterexample :
    downCount [⟨ACTION_DOWN, 0, 10, 10, 5⟩, ⟨ACTION_DOWN, 0, 11, 11, 5⟩,
               ⟨ACTION_POINTER_UP, 0, 0, 0, 0⟩] 0 = 2 ∧
    clearedCount [⟨ACTION_DOWN, 0, 10, 10, 5⟩, ⟨ACTION_DOWN, 0, 11, 11, 5⟩,
               ⟨ACTION_POINTER_UP, 0, 0, 0, 0⟩] 0 = 1 ∧
    ((processTouch (some ()) mtInit
      [⟨ACTION_DOWN, 0, 10, 10, 5⟩, ⟨ACTION_DOWN, 0, 11, 11, 5⟩,
       ⟨ACTION_POINTER_UP, 0, 0, 0, 0⟩]).1 0 != 0) = false := by
  refine ⟨by decide, by decide, by decide⟩

/-- C1 (amended): for every sequence of touch commands processed while
a consumer is attached, slot `i` of the 5-entry slot table is active
iff the last lifecycle command concerning slot `i` (a DOWN/POINTER_DOWN
naming `i`, an UP, or a CANCEL/POINTER_UP naming `i`) is a
DOWN/POINTER_DOWN; and a MOVE action never changes any slot's
activity. -/
theorem touch_slot_invariant_last_lifecycle :
    (∀ (cmds : List TouchCmd) (i : Fin MAX_POINTERS),
      ((processTouch (some ()) mtInit cmds).1 i != 0) =
        specActiveFrom mtInit cmds i)
    ∧ (∀ (sender : Option Unit) (pid : Fin MAX_POINTERS) (x y p : Int)
         (mt : TouchState),
        (handleTouchEvent sender ACTION_MOVE pid x y p mt).1 = mt) := by
  constructor
  · intro cmds i
    rw [processTouch, processTouch_fst, runTouch_specActive]
  · intro sender pid x y p mt
    cases sender with
    | none => rfl
    | some u =>
      simp only [handleTouchEvent]
      norm_num [ACTION_MOVE, ACTION_DOWN, ACTION_POINTER_DOWN, ACTION_UP,
        ACTION_CANCEL, ACTION_POINTER_UP]
      split_ifs <;> rfl

/-! ### Claim C3 -/

/-- C3 (counterexample): on a write failure for a received event, the
touch dispatch loop continues (its write result is discarded with
`let _ = ...` and the loop has no break), while the key dispatch loop
exits; so the touch session is not terminated by a failed write. -/
theorem touch_loop_write_failure_counterexample :
    touchLoopIter (some ⟨1, 1, 1⟩) false = LoopAct.next ∧
    keyLoopIter (some ⟨1, 1, 1⟩) false = LoopAct.exit := by
  exact ⟨rfl, rfl⟩

/-- C3 (amended): the key device's dispatch loop terminates its session
when a write to the consumer fails (and when the channel closes); the
touch device's dispatch loop ignores write failures and never exits. -/
theorem dispatch_loop_write_failure :
    (∀ e : InputEvent, keyLoopIter (some e) false = LoopAct.exit) ∧
    keyLoopIter none true = LoopAct.exit ∧
    (∀ (r : Option InputEvent) (b : Bool), touchLoopIter r b = LoopAct.next) := by
  refine ⟨fun e => rfl, rfl, fun r b => ?_⟩
  cases r <;> cases b <;> rfl

/-! ### Claim C4 -/

/-- C4 (counterexample): the key-tap form `send_key_code` emits
press, SYN_REPORT, release — the release is NOT followed by a
SYN_REPORT, so not every EV_KEY event is followed by an
EV_SYN(SYN_REPORT) event. -/
theorem send_key_code_missing_syn_counterexample :
    sendKeyCode (some ()) 1 =
      [⟨EV_KEY, 1, 1⟩, ⟨EV_SYN, SYN_REPORT, SYN_REPORT⟩, ⟨EV_KEY, 1, 0⟩] ∧
    everyKeyFollowedBySyn (sendKeyCode (some ()) 1) = false := by
  exact ⟨rfl, by decide⟩

/-- C4 (amended): with a key consumer attached, `send_key_code(keycode)`
emits exactly EV_KEY(keycode, 1), EV_SYN(SYN_REPORT),
EV_KEY(keycode, 0): the press is followed by a SYN_REPORT but the
trailing release is not. -/
theorem send_key_code_events (keycode : Int) :
    sendKeyCode (some ()) keycode =
      [⟨EV_KEY, keycode, 1⟩, ⟨EV_SYN, SYN_REPORT, SYN_REPORT⟩,
       ⟨EV_KEY, keycode, 0⟩] := rfl

/-! ### Claim C5 -/

/-- C5: with a touch consumer attached and all slots initially
inactive, DOWN(pointer_id 0, x, y, pressure) followed by UP emits
exactly, in order: ABS_MT_SLOT=0, ABS_MT_TRACKING_ID=1, BTN_TOUCH=108,
BTN_TOOL_FINGER=108, ABS_MT_POSITION_X=x, ABS_MT_POSITION_Y=y,
ABS_MT_PRESSURE=pressure, SYN_REPORT, then ABS_MT_SLOT=0,
ABS_MT_TRACKING_ID=-1, SYN_REPORT. -/
theorem touch_tap_event_sequence (x y pressure : Int) :
    (processTouch (some ()) mtInit
      [⟨ACTION_DOWN, 0, x, y, pressure⟩, ⟨ACTION_UP, 0, 0, 0, 0⟩]).2 =
    [⟨EV_ABS, ABS_MT_SLOT, 0⟩, ⟨EV_ABS, ABS_MT_TRACKING_ID, 1⟩,
     ⟨EV_KEY, BTN_TOUCH, 108⟩, ⟨EV_KEY, BTN_TOOL_FINGER, 108⟩,
     ⟨EV_ABS, ABS_MT_POSITION_X, x⟩, ⟨EV_ABS, ABS_MT_POSITION_Y, y⟩,
     ⟨EV_ABS, ABS_MT_PRESSURE, pressure⟩, ⟨EV_SYN, SYN_REPORT, SYN_REPORT⟩,
     ⟨EV_ABS, ABS_MT_SLOT, 0⟩, ⟨EV_ABS, ABS_MT_TRACKING_ID, -1⟩,
     ⟨EV_SYN, SYN_REPORT, SYN_REPORT⟩] := by
  rfl

/-! ### Claim C10 -/

/-- C10: when no touch consumer is attached (the producer channel is
absent), `handle_touch_event` emits nothing and leaves the slot table
completely unchanged, for every action; in particular a DOWN issued
before a consumer connects does not mark its slot active. -/
theorem touch_no_consumer_noop (action : Int) (pid : Fin MAX_POINTERS)
    (x y pressure : Int) (mt : TouchState) :
    handleTouchEvent none action pid x y pressure mt = (mt, []) := rfl

/-! ### Framebuffer streamer (`framebuffer.rs`) -/

/-- Shared framebuffer data fed by the gralloc frame callback
(`FramebufferData` in `framebuffer.rs`); bytes are modelled as `Nat`
values (< 256 in practice). -/
structure FramebufferData where
  data : List Nat
  width : Nat
  height : Nat
  dirty : Bool
deriving DecidableEq, Repr

/-- One frame message as written by `send_frame`: the 5 magic bytes
"FRAME", the caller-supplied i32 width and height, the u32 payload
length, then the payload bytes. -/
structure FrameMsg where
  magic : List Nat
  width : Int
  height : Int
  len : Nat
  payload : List Nat
deriving DecidableEq, Repr

/-- `send_frame(stream, data, width, height)` from `framebuffer.rs`:
writes header "FRAME", `width`, `height`, `data.len()`, then `data`. -/
def sendFrame (data : List Nat) (width height : Int) : FrameMsg :=
  ⟨[70, 82, 65, 77, 69], width, height, data.length, data⟩

/-- One iteration of the streamer loop in `FrameStreamer::start`
(`framebuffer.rs` lines 119-151): choose the gralloc frame when the
shared cell holds non-empty data with positive dimensions, otherwise
the fallback bytes (framebuffer-device read or generated test pattern,
abstracted here as `fallback`); then call `send_frame` for a client.
`send_frame` is invoked with the streamer's configured
`width`/`height`, whatever the chosen source. -/
def streamTick (width height : Int) (fb : FramebufferData)
    (fallback : List Nat) : FrameMsg :=
  let frame :=
    if fb.data ≠ [] ∧ 0 < fb.width ∧ 0 < fb.height then fb.data else fallback
  sendFrame frame width height

/-! ### Claim C2 -/

/-- C2 (counterexample): a gralloc source frame of dimensions 1×1
streamed by a streamer configured for 2×2 is forwarded with the
CONFIGURED dimensions 2×2 in the header, not the source's 1×1, though
the payload bytes are the source's. -/
theorem frame_header_dims_counterexample :
    (streamTick 2 2 ⟨[9, 9, 9, 9], 1, 1, true⟩ []).payload = [9, 9, 9, 9] ∧
    (streamTick 2 2 ⟨[9, 9, 9, 9], 1, 1, true⟩ []).width = 2 ∧
    (streamTick 2 2 ⟨[9, 9, 9, 9], 1, 1, true⟩ []).height = 2 ∧
    ((2 : Int) = 1) = False := by
  refine ⟨rfl, rfl, rfl, by simp⟩

/-- C2 (amended): the streamer never re-negotiates resolution: every
frame header carries the streamer's configured width and height, even
when the source (gralloc) frame has different dimensions; the source
bytes themselves are forwarded as-is, with the length field equal to
their count. -/
theorem frame_header_uses_configured_dims (width height : Int)
    (fb : FramebufferData) (fallback : List Nat)
    (hne : fb.data ≠ []) (hw : 0 < fb.width) (hh : 0 < fb.height) :
    (streamTick width height fb fallback).width = width ∧
    (streamTick width height fb fallback).height = height ∧
    (streamTick width height fb fallback).payload = fb.data ∧
    (streamTick width height fb fallback).len = fb.data.length ∧
    (streamTick width height fb fallback).magic = [70, 82, 65, 77, 69] := by
  simp [streamTick, sendFrame, hne, hw, hh]

/-- Witness for `frame_header_uses_configured_dims` at a concrete
input. -/
theorem frame_header_uses_configured_dims_witness :
    ([(3 : Nat), 4] ≠ ([] : List Nat) ∧ (0 : Nat) < 1 ∧ (0 : Nat) < 1) ∧
    ((streamTick 7 8 ⟨[3, 4], 1, 1, false⟩ [5]).width = 7 ∧
     (streamTick 7 8 ⟨[3, 4], 1, 1, false⟩ [5]).height = 8 ∧
     (streamTick 7 8 ⟨[3, 4], 1, 1, false⟩ [5]).payload = [3, 4] ∧
     (streamTick 7 8 ⟨[3, 4], 1, 1, false⟩ [5]).len = [(3 : Nat), 4].length ∧
     (streamTick 7 8 ⟨[3, 4], 1, 1, false⟩ [5]).magic = [70, 82, 65, 77, 69]) :=
  ⟨⟨by simp, by decide, by decide⟩,
   frame_header_uses_configured_dims 7 8 ⟨[3, 4], 1, 1, false⟩ [5]
     (by simp) (by decide) (by decide)⟩

/-! ### Gralloc server (`gralloc.rs`) -/

/-- Pixel formats (Android HAL_PIXEL_FORMAT values). -/
inductive PixelFormat where
  | rgba8888
  | rgbx8888
  | rgb888
  | rgb565
  | bgra8888
deriving DecidableEq, Repr

def PixelFormat.bytesPerPixel : PixelFormat → Nat
  | .rgba8888 | .rgbx8888 | .bgra8888 => 4
  | .rgb888 => 3
  | .rgb565 => 2

def PixelFormat.fromU32 : Nat → Option PixelFormat
  | 1 => some .rgba8888
  | 2 => some .rgbx8888
  | 3 => some .rgb888
  | 4 => some .rgb565
  | 5 => some .bgra8888
  | _ => none

/-- The `#[repr(u32)]` discriminant used by `format as u32`. -/
def PixelFormat.toU32 : PixelFormat → Nat
  | .rgba8888 => 1
  | .rgbx8888 => 2
  | .rgb888 => 3
  | .rgb565 => 4
  | .bgra8888 => 5

structure BufferDescriptor where
  width : Nat
  height : Nat
  format : PixelFormat
  usage : Nat
  stride : Nat
deriving DecidableEq, Repr

/-- A gralloc buffer; `data` models the `Vec<u8>` contents. -/
structure GrallocBuffer where
  id : Nat
  descriptor : BufferDescriptor
  data : List Nat
deriving DecidableEq, Repr

/-- `GrallocBuffer::new`: stride is the width, the data vector holds
`stride * height * bpp` zero bytes (`usize` product, reduced mod
`2 ^ 64` where Rust release-mode arithmetic would wrap). -/
def GrallocBuffer.new (id width height : Nat) (format : PixelFormat)
    (usage : Nat) : GrallocBuffer :=
  let bpp := format.bytesPerPixel
  let stride := width
  let size := (stride * height * bpp) % 2 ^ 64
  ⟨id, ⟨width, height, format, usage, stride⟩, List.replicate size 0⟩

/-- `GrallocBuffer::size` returns `data.len()`. -/
def GrallocBuffer.size (b : GrallocBuffer) : Nat := b.data.length

/-- The 48-byte wire request (fields already decoded from
little-endian bytes). -/
structure GrallocRequest where
  command : Nat
  buffer_id : Nat
  width : Nat
  height : Nat
  format : Nat
  usage : Nat
  offset : Nat
  size : Nat
deriving DecidableEq, Repr

/-- The 36-byte wire response. -/
structure GrallocResponse where
  status : Int
  buffer_id : Nat
  width : Nat
  height : Nat
  stride : Nat
  format : Nat
  size : Nat
deriving DecidableEq, Repr

/-- Server state shared by the request handlers: the buffer table
(`HashMap<u64, GrallocBuffer>` modelled as a partial map), the
`next_buffer_id` counter and the presented-buffer cell
(`display_buffer_id`). -/
structure GrallocState where
  buffers : Nat → Option GrallocBuffer
  nextId : Nat
  displayId : Option Nat

/-- `GrallocServer::new`: empty table, `next_buffer_id` starts at 1,
nothing presented. -/
def GrallocState.init : GrallocState := ⟨fun _ => none, 1, none⟩

/-- A request that only carries a command and a buffer id (the other
fields zero), as used for Free / Lock / GetInfo / Present. -/
def mkIdRequest (command bufferId : Nat) : GrallocRequest :=
  ⟨command, bufferId, 0, 0, 0, 0, 0, 0⟩

/-- Width chosen by `handle_allocate`: the request's unless zero. -/
def allocWidth (req : GrallocRequest) (defaultWidth : Nat) : Nat :=
  if 0 < req.width then req.width else defaultWidth

/-- Height chosen by `handle_allocate`: the request's unless zero. -/
def allocHeight (req : GrallocRequest) (defaultHeight : Nat) : Nat :=
  if 0 < req.height then req.height else defaultHeight

/-- Format chosen by `handle_allocate`: parsed, RGBA8888 on failure. -/
def allocFormat (req : GrallocRequest) : PixelFormat :=
  (PixelFormat.fromU32 req.format).getD PixelFormat.rgba8888

/-- `handle_allocate` from `gralloc.rs` (lines 415-446). -/
def handleAllocate (req : GrallocRequest) (defaultWidth defaultHeight : Nat)
    (s : GrallocState) : GrallocResponse × GrallocState :=
  let width := allocWidth req defaultWidth
  let height := allocHeight req defaultHeight
  let format := allocFormat req
  let bufferId := s.nextId
  let buffer := GrallocBuffer.new bufferId width height format req.usage
  (⟨0, bufferId, width, height, buffer.descriptor.stride, format.toU32,
    buffer.size⟩,
   { s with
     buffers := Function.update s.buffers bufferId (some buffer),
     nextId := s.nextId + 1 })

/-- `handle_free` from `gralloc.rs` (lines 448-478). -/
def handleFree (req : GrallocRequest) (s : GrallocState) :
    GrallocResponse × GrallocState :=
  match s.buffers req.buffer_id with
  | some _ =>
    (⟨0, req.buffer_id, 0, 0, 0, 0, 0⟩,
     { s with buffers := Function.update s.buffers req.buffer_id none })
  | none => (⟨-1, req.buffer_id, 0, 0, 0, 0, 0⟩, s)

/-- `handle_get_info` from `gralloc.rs` (lines 621-650). -/
def handleGetInfo (req : GrallocRequest) (s : GrallocState) :
    GrallocResponse :=
  match s.buffers req.buffer_id with
  | some buffer =>
    ⟨0, req.buffer_id, buffer.descriptor.width, buffer.descriptor.height,
     buffer.descriptor.stride, buffer.descriptor.format.toU32, buffer.size⟩
  | none => ⟨-1, req.buffer_id, 0, 0, 0, 0, 0⟩

/-- `handle_lock` from `gralloc.rs` (lines 480-529), seen as what is
written to the connection: the response, and — when the buffer exists —
the raw pixel bytes written right after it (the internal `-2` sentinel
that suppresses the outer loop's duplicate response is connection
plumbing and not part of the wire data). -/
def handleLock (req : GrallocRequest) (s : GrallocState) :
    GrallocResponse × Option (List Nat) :=
  match s.buffers req.buffer_id with
  | some buffer =>
    (⟨0, req.buffer_id, buffer.descriptor.width, buffer.descriptor.height,
      buffer.descriptor.stride, buffer.descriptor.format.toU32, buffer.size⟩,
     some buffer.data)
  | none => (⟨-1, req.buffer_id, 0, 0, 0, 0, 0⟩, none)

/-- The contains-key check at the end of `handle_unlock_with_data`. -/
def unlockStatusResp (s : GrallocState) (bufferId : Nat) : GrallocResponse :=
  if (s.buffers bufferId).isSome
  then ⟨0, bufferId, 0, 0, 0, 0, 0⟩
  else ⟨-1, bufferId, 0, 0, 0, 0, 0⟩

/-- `handle_unlock_with_data` from `gralloc.rs` (lines 531-576).
`stream` is the byte stream following the request on the connection;
the result is `none` when `read_exact` fails (stream too short,
`Err` propagates and ends the session), otherwise the number of bytes
consumed from the stream, the response, and the new state.  When
`req.size > 0` the handler always reads `req.size` bytes first, then
copies them into the buffer (truncated to its capacity) when the id is
known. -/
def handleUnlockWithData (req : GrallocRequest) (stream : List Nat)
    (s : GrallocState) : Option (Nat × GrallocResponse × GrallocState) :=
  if 0 < req.size then
    if stream.length < req.size then none
    else
      let data := stream.take req.size
      let s₂ :=
        match s.buffers req.buffer_id with
        | some buffer =>
          let copyLen := min data.length buffer.data.length
          { s with
            buffers :=
              Function.update s.buffers req.buffer_id
                (some { buffer with
                        data := data.take copyLen ++
                                buffer.data.drop copyLen }) }
        | none => s
      some (req.size, unlockStatusResp s₂ req.buffer_id, s₂)
  else
    some (0, unlockStatusResp s req.buffer_id, s)

/-- `handle_present` from `gralloc.rs` (lines 652-685): set the
display id unconditionally, invoke the frame callback with
`(data, width, height)` when the buffer exists (the third component
records the argument the callback receives, `none` when it is not
invoked), reply status 0 regardless. -/
def handlePresent (req : GrallocRequest) (s : GrallocState) :
    GrallocResponse × GrallocState × Option (List Nat × Nat × Nat) :=
  let s₂ := { s with displayId := some req.buffer_id }
  let callbackArg :=
    match s₂.buffers req.buffer_id with
    | some buffer =>
      some (buffer.data, buffer.descriptor.width, buffer.descriptor.height)
    | none => none
  (⟨0, req.buffer_id, 0, 0, 0, 0, 0⟩, s₂, callbackArg)

/-- `GrallocServer::get_display_buffer`: read the presented buffer. -/
def getDisplayBuffer (s : GrallocState) : Option (List Nat × Nat × Nat) :=
  match s.displayId with
  | some bufferId =>
    match s.buffers bufferId with
    | some buffer =>
      some (buffer.data, buffer.descriptor.width, buffer.descriptor.height)
    | none => none
  | none => none

/-! ### Claim C6 -/

/-- C6: every Allocate replies status 0 with the requested width and
height (server defaults when the request's are zero), the parsed
format (RGBA8888 when unparsable), stride equal to the width, size
equal to stride·height·bpp (given that product fits in a `usize`), and
a buffer id that equals the current `next_buffer_id` counter — which
starts at 1 and is incremented by the allocation, so ids increase
monotonically from 1 over the server's lifetime; and a GetInfo on the
fresh id (before any Free) returns exactly the Allocate response. -/
theorem allocate_getinfo_roundtrip (req : GrallocRequest) (dw dh : Nat)
    (s : GrallocState)
    (hsize : allocWidth req dw * allocHeight req dh *
      (allocFormat req).bytesPerPixel < 2 ^ 64) :
    (handleAllocate req dw dh s).1.status = 0 ∧
    (handleAllocate req dw dh s).1.width = allocWidth req dw ∧
    (handleAllocate req dw dh s).1.height = allocHeight req dh ∧
    (handleAllocate req dw dh s).1.format = (allocFormat req).toU32 ∧
    (handleAllocate req dw dh s).1.stride =
      (handleAllocate req dw dh s).1.width ∧
    (handleAllocate req dw dh s).1.size =
      (handleAllocate req dw dh s).1.stride *
        (handleAllocate req dw dh s).1.height *
        (allocFormat req).bytesPerPixel ∧
    (handleAllocate req dw dh s).1.buffer_id = s.nextId ∧
    (handleAllocate req dw dh s).2.nextId = s.nextId + 1 ∧
    GrallocState.init.nextId = 1 ∧
    handleGetInfo (mkIdRequest 5 (handleAllocate req dw dh s).1.buffer_id)
        (handleAllocate req dw dh s).2 =
      (handleAllocate req dw dh s).1 := by
  refine ⟨rfl, rfl, rfl, rfl, rfl, ?_, rfl, rfl, rfl, ?_⟩
  · simp only [handleAllocate, GrallocBuffer.new, GrallocBuffer.size,
      List.length_replicate]
    exact Nat.mod_eq_of_lt hsize
  · simp [handleAllocate, handleGetInfo, mkIdRequest, GrallocBuffer.new,
      GrallocBuffer.size, Function.update_same]

/-- Witness for `allocate_getinfo_roundtrip`: an Allocate of a 4×2
RGBA8888 buffer on a fresh server. -/
theorem allocate_getinfo_roundtrip_witness :
    allocWidth ⟨1, 0, 4, 2, 1, 0, 0, 0⟩ 720 *
        allocHeight ⟨1, 0, 4, 2, 1, 0, 0, 0⟩ 1280 *
        (allocFormat ⟨1, 0, 4, 2, 1, 0, 0, 0⟩).bytesPerPixel < 2 ^ 64 ∧
    handleGetInfo
        (mkIdRequest 5
          (handleAllocate ⟨1, 0, 4, 2, 1, 0, 0, 0⟩ 720 1280
            GrallocState.init).1.buffer_id)
        (handleAllocate ⟨1, 0, 4, 2, 1, 0, 0, 0⟩ 720 1280
          GrallocState.init).2 =
      (handleAllocate ⟨1, 0, 4, 2, 1, 0, 0, 0⟩ 720 1280
        GrallocState.init).1 :=
  ⟨by decide,
   (allocate_getinfo_roundtrip ⟨1, 0, 4, 2, 1, 0, 0, 0⟩ 720 1280
     GrallocState.init (by decide)).2.2.2.2.2.2.2.2.2⟩

/-! ### Claim C7 -/

lemma take_append_replicate (bytes : List Nat) (size : Nat) :
    bytes.take (min bytes.length size) ++
      List.replicate (size - min bytes.length size) (0 : Nat) =
    bytes.take size ++ List.replicate (size - bytes.length) 0 := by
  rcases le_total bytes.length size with h | h
  · rw [min_eq_left h, List.take_length, List.take_of_length_le h]
  · rw [min_eq_right h, Nat.sub_self, Nat.sub_eq_zero_of_le h]

/-- C7: for a freshly allocated (zero-filled) buffer, Unlock with a
payload `bytes` of `req.size = bytes.length` and then Lock yields
pixel data equal to `bytes` truncated to the buffer's declared size
when longer, and `bytes` padded with the buffer's original zero bytes
up to the declared size when shorter; the Unlock consumes exactly its
payload and replies status 0. -/
theorem unlock_lock_roundtrip (bufferId width height : Nat)
    (format : PixelFormat) (usage : Nat) (bytes : List Nat)
    (s : GrallocState) :
    (handleUnlockWithData ⟨4, bufferId, 0, 0, 0, 0, 0, bytes.length⟩ bytes
        { s with
          buffers := Function.update s.buffers bufferId
            (some (GrallocBuffer.new bufferId width height format
              usage)) }).map
      (fun out => (out.1, out.2.1.status,
        (handleLock (mkIdRequest 3 bufferId) out.2.2).2)) =
    some (bytes.length, 0,
      some (bytes.take ((width * height * format.bytesPerPixel) % 2 ^ 64) ++
        List.replicate
          (((width * height * format.bytesPerPixel) % 2 ^ 64) -
            bytes.length)
          0)) := by
  rcases Nat.eq_zero_or_pos bytes.length with hlen | hlen
  · rw [List.length_eq_zero] at hlen
    subst hlen
    simp [handleUnlockWithData, unlockStatusResp, handleLock, mkIdRequest,
      Function.update_same, GrallocBuffer.new]
  · simp only [handleUnlockWithData, if_pos hlen, Nat.lt_irrefl, if_neg,
      Function.update_same, List.take_length, Option.map_some]
    simp [unlockStatusResp, Function.update_same, handleLock, mkIdRequest,
      GrallocBuffer.new]
    exact take_append_replicate bytes _

/-! ### Claim C9 -/

/-- C9: an Unlock naming an unknown buffer id with `size > 0` still
consumes exactly `size` bytes from the connection stream (preserving
request framing), replies status −1, and leaves the server state —
in particular the buffer table — unchanged. -/
theorem unlock_unknown_id_preserves_framing (req : GrallocRequest)
    (stream : List Nat) (s : GrallocState)
    (habs : s.buffers req.buffer_id = none) (hpos : 0 < req.size)
    (hlen : req.size ≤ stream.length) :
    handleUnlockWithData req stream s =
      some (req.size, ⟨-1, req.buffer_id, 0, 0, 0, 0, 0⟩, s) := by
  simp [handleUnlockWithData, hpos, habs, unlockStatusResp,
    Nat.not_lt.mpr hlen]

/-- Witness for `unlock_unknown_id_preserves_framing`: an Unlock of
2 bytes for the unknown id 7 on a fresh server. -/
theorem unlock_unknown_id_preserves_framing_witness :
    (GrallocState.init.buffers 7 = none ∧ 0 < (2 : Nat) ∧
      (2 : Nat) ≤ ([5, 6] : List Nat).length) ∧
    handleUnlockWithData ⟨4, 7, 0, 0, 0, 0, 0, 2⟩ [5, 6] GrallocState.init =
      some (2, ⟨-1, 7, 0, 0, 0, 0, 0⟩, GrallocState.init) :=
  ⟨⟨rfl, by decide, by decide⟩,
   unlock_unknown_id_preserves_framing ⟨4, 7, 0, 0, 0, 0, 0, 2⟩ [5, 6]
     GrallocState.init rfl (by decide) (by decide)⟩

/-! ### Claim C8 -/

lemma handleAllocate_displayId (req : GrallocRequest) (dw dh : Nat)
    (s : GrallocState) :
    (handleAllocate req dw dh s).2.displayId = s.displayId := rfl

lemma handleFree_displayId (req : GrallocRequest) (s : GrallocState) :
    (handleFree req s).2.displayId = s.displayId := by
  unfold handleFree
  cases s.buffers req.buffer_id <;> rfl

lemma handleUnlockWithData_displayId (req : GrallocRequest)
    (stream : List Nat) (s : GrallocState)
    (out : Nat × GrallocResponse × GrallocState)
    (h : handleUnlockWithData req stream s = some out) :
    out.2.2.displayId = s.displayId := by
  unfold handleUnlockWithData at h
  split_ifs at h
  all_goals first
    | (cases h; rfl)
    | (cases h; cases hb : s.buffers req.buffer_id <;> simp [hb])

/-- C8: `Present(id)` sets the presented id unconditionally (even when
no buffer with that id exists), invokes the frame callback exactly
when a buffer with that id exists (the third component is the
argument it receives), and replies status 0 in all cases; no
subsequent operation — Allocate, Free, Unlock, or another Present —
ever clears the presented id; and reading the presented buffer after
`Free(id)` observes absence. -/
theorem present_semantics (bufferId : Nat) (s : GrallocState) :
    (handlePresent (mkIdRequest 7 bufferId) s).1.status = 0 ∧
    (handlePresent (mkIdRequest 7 bufferId) s).1.buffer_id = bufferId ∧
    (handlePresent (mkIdRequest 7 bufferId) s).2.1.displayId =
      some bufferId ∧
    (handlePresent (mkIdRequest 7 bufferId) s).2.2 =
      (s.buffers bufferId).map
        (fun b => (b.data, b.descriptor.width, b.descriptor.height)) ∧
    (∀ (req : GrallocRequest) (dw dh : Nat),
      (handleAllocate req dw dh
          (handlePresent (mkIdRequest 7 bufferId) s).2.1).2.displayId =
        some bufferId) ∧
    (∀ req : GrallocRequest,
      (handleFree req
          (handlePresent (mkIdRequest 7 bufferId) s).2.1).2.displayId =
        some bufferId) ∧
    (∀ (req : GrallocRequest) (stream : List Nat)
       (out : Nat × GrallocResponse × GrallocState),
      handleUnlockWithData req stream
          (handlePresent (mkIdRequest 7 bufferId) s).2.1 = some out →
        out.2.2.displayId = some bufferId) ∧
    (∀ req : GrallocRequest,
      (handlePresent req
          (handlePresent (mkIdRequest 7 bufferId) s).2.1).2.1.displayId =
        some req.buffer_id) ∧
    getDisplayBuffer
      (handleFree (mkIdRequest 2 bufferId)
        (handlePresent (mkIdRequest 7 bufferId) s).2.1).2 = none := by
  refine ⟨rfl, rfl, rfl, ?_, ?_, ?_, ?_, ?_, ?_⟩
  · simp only [handlePresent, mkIdRequest]
    cases s.buffers bufferId <;> rfl
  · intro req dw dh; rfl
  · intro req
    rw [handleFree_displayId]; rfl
  · intro req stream out h
    rw [handleUnlockWithData_displayId req stream _ out h]; rfl
  · intro req; rfl
  · cases hb : s.buffers bufferId with
    | some b =>
      simp [handlePresent, handleFree, getDisplayBuffer, mkIdRequest, hb,
        Function.update_same]
    | none =>
      simp [handlePresent, handleFree, getDisplayBuffer, mkIdRequest, hb]

/-- Witness for `present_semantics`: Present(3) on a fresh server,
then an Unlock for the unknown id 9 (exercising the hypothesis of the
no-clear conjunct) and a Free(3). -/
theorem present_semantics_witness :
    handleUnlockWithData (mkIdRequest 4 9) []
        (handlePresent (mkIdRequest 7 3) GrallocState.init).2.1 =
      some (0, ⟨-1, 9, 0, 0, 0, 0, 0⟩,
        (handlePresent (mkIdRequest 7 3) GrallocState.init).2.1) ∧
    ((0, (⟨-1, 9, 0, 0, 0, 0, 0⟩ : GrallocResponse),
      (handlePresent (mkIdRequest 7 3) GrallocState.init).2.1) :
        Nat × GrallocResponse × GrallocState).2.2.displayId = some 3 ∧
    (handlePresent (mkIdRequest 7 3) GrallocState.init).1.status = 0 ∧
    getDisplayBuffer
      (handleFree (mkIdRequest 2 3)
        (handlePresent (mkIdRequest 7 3) GrallocState.init).2.1).2 = none := by
  have h := present_semantics 3 GrallocState.init
  exact ⟨rfl, h.2.2.2.2.2.2.1 (mkIdRequest 4 9) [] _ rfl, h.1,
    h.2.2.2.2.2.2.2.2⟩

end Twoyi
